import Mathlib

/-!
# Group Metrics Aggregator — verification development

Shallow embedding of `core/bench/src/analytics/metrics/group.rs`, the group
metrics aggregator of the iggy benchmark harness, together with proofs of the
spec's claims about it.

Modelling decisions:
* `f64` scalar fields are embedded as `ℚ`.  The upstream contract (spec §6)
  guarantees already-validated, finite, non-negative inputs, so the NaN/Inf
  corner of IEEE arithmetic is outside the modelled state space; over `ℚ` the
  comparator `partial_cmp(..).unwrap_or(Equal)` used by the source never hits
  its incomparable fallback and coincides with the total order on `ℚ`.
* A time series is embedded as the ordered list of its sample values.
* The collaborators imported from `bench_report` and
  `analytics::time_series` (`aggregate_sum`, `aggregate_avg`,
  `MovingAverageProcessor`, `min`, `max`, `std_dev`) are not part of the
  aggregator's source; they are modelled from the spec's contracts (§2, §6)
  and marked as such on each definition.
-/

/-- `ActorKind` — role tag of one benchmark participant. -/
inductive ActorKind where
  | Producer
  | Consumer
  | ProducingConsumer
  deriving DecidableEq, Repr

/-- `GroupMetricsKind` — classification of the actor population of a group. -/
inductive GroupMetricsKind where
  | Producers
  | Consumers
  | ProducingConsumers
  | ProducersAndConsumers
  deriving DecidableEq, Repr

/-- A time series: the ordered sequence of numeric samples. -/
abbrev TimeSeries := List ℚ

/-- Scalar summary of one actor's result (`BenchmarkIndividualMetricsSummary`). -/
structure BenchmarkIndividualMetricsSummary where
  actor_kind : ActorKind
  throughput_megabytes_per_second : ℚ
  throughput_messages_per_second : ℚ
  p50_latency_ms : ℚ
  p90_latency_ms : ℚ
  p95_latency_ms : ℚ
  p99_latency_ms : ℚ
  p999_latency_ms : ℚ
  p9999_latency_ms : ℚ
  avg_latency_ms : ℚ
  median_latency_ms : ℚ
  min_latency_ms : ℚ
  max_latency_ms : ℚ
  total_message_batches : ℕ
  deriving DecidableEq, Repr

/-- One actor's full result: scalar summary plus three time series. -/
structure BenchmarkIndividualMetrics where
  summary : BenchmarkIndividualMetricsSummary
  throughput_mb_ts : TimeSeries
  throughput_msg_ts : TimeSeries
  latency_ts : TimeSeries
  deriving DecidableEq, Repr

/-- Aggregated scalar result (`BenchmarkGroupMetricsSummary`). -/
structure BenchmarkGroupMetricsSummary where
  kind : GroupMetricsKind
  total_throughput_megabytes_per_second : ℚ
  total_throughput_messages_per_second : ℚ
  average_throughput_megabytes_per_second : ℚ
  average_throughput_messages_per_second : ℚ
  average_p50_latency_ms : ℚ
  average_p90_latency_ms : ℚ
  average_p95_latency_ms : ℚ
  average_p99_latency_ms : ℚ
  average_p999_latency_ms : ℚ
  average_p9999_latency_ms : ℚ
  average_latency_ms : ℚ
  average_median_latency_ms : ℚ
  min_latency_ms : ℚ
  max_latency_ms : ℚ
  std_dev_latency_ms : ℚ
  deriving DecidableEq, Repr

/-- The full group result (`BenchmarkGroupMetrics`): summary plus the three
combined, smoothed time series. -/
structure BenchmarkGroupMetrics where
  summary : BenchmarkGroupMetricsSummary
  avg_throughput_mb_ts : TimeSeries
  avg_throughput_msg_ts : TimeSeries
  avg_latency_ts : TimeSeries
  deriving DecidableEq, Repr

/-- Modelled from the spec: the Time-Series Combinator's `aggregate_sum`
(`TimeSeriesCalculator::aggregate_sum`, outside the core source) combines the
input series by elementwise sum.  On length mismatch (left open by the spec)
this model truncates to the shortest series. -/
def aggregate_sum : List TimeSeries → TimeSeries
  | [] => []
  | s :: rest => rest.foldl (fun acc t => List.zipWith (· + ·) acc t) s

/-- Modelled from the spec: the Time-Series Combinator's `aggregate_avg`
(`TimeSeriesCalculator::aggregate_avg`, outside the core source) combines the
input series by elementwise mean. -/
def aggregate_avg (series : List TimeSeries) : TimeSeries :=
  (aggregate_sum series).map (fun v => v / (series.length : ℚ))

/-- Modelled from the spec: the Smoothing Processor
(`MovingAverageProcessor::process`, outside the core source) smooths a series
by a moving average over `window` samples; boundary handling is the
collaborator's own contract, here partial windows at the left edge. -/
def MovingAverageProcessor.process (window : ℕ) (s : TimeSeries) : TimeSeries :=
  (List.range s.length).map (fun i =>
    let seg := (s.take (i + 1)).drop (i + 1 - window)
    seg.sum / (seg.length : ℚ))

/-- One step of a running minimum over an iterator, as Rust's
`Iterator::min_by` performs it: the accumulator is the best value so far
(`none` before the first element). -/
def optMinStep (acc : Option ℚ) (v : ℚ) : Option ℚ :=
  some (min (acc.getD v) v)

/-- One step of a running maximum over an iterator (`Iterator::max_by`). -/
def optMaxStep (acc : Option ℚ) (v : ℚ) : Option ℚ :=
  some (max (acc.getD v) v)

/-- Rust's `Iterator::min_by` with the source's comparator
`partial_cmp(..).unwrap_or(Equal)`, which on `ℚ` is the total order:
the running-minimum fold, `none` on an empty iterator. -/
def optMin (l : List ℚ) : Option ℚ := l.foldl optMinStep none

/-- Rust's `Iterator::max_by` with the same comparator. -/
def optMax (l : List ℚ) : Option ℚ := l.foldl optMaxStep none

/-- Modelled from the spec: `bench_report::utils::min` (outside the core
source), the minimum of a (fallback) time series, absent when empty. -/
def utils_min (ts : TimeSeries) : Option ℚ := optMin ts

/-- Modelled from the spec: `bench_report::utils::max` (outside the core
source), the maximum of a (fallback) time series, absent when empty. -/
def utils_max (ts : TimeSeries) : Option ℚ := optMax ts

/-- Modelled from the spec: `bench_report::utils::std_dev` (outside the core
source), the dispersion of a series, absent when the series is empty.  `ℚ`
has no exact square roots, so the model carries the population variance (the
square of the standard deviation; zero, positive and absent exactly when the
standard deviation is); every claim below depends only on which series this
function is applied to, never on the scalar returned. -/
def std_dev (s : TimeSeries) : Option ℚ :=
  match s with
  | [] => none
  | _ =>
    let n : ℚ := s.length
    let m := s.sum / n
    some ((s.map (fun v => (v - m) ^ 2)).sum / n)

/-- `ThroughputMetrics` — intermediate record of `group.rs`. -/
structure ThroughputMetrics where
  total_megabytes_per_sec : ℚ
  total_messages_per_sec : ℚ
  average_megabytes_per_sec : ℚ
  average_messages_per_sec : ℚ
  deriving DecidableEq, Repr

/-- `calculate_throughput_metrics` of `group.rs`: totals are sums of the
per-record throughput fields, averages divide the totals by the record
count. -/
def calculate_throughput_metrics (stats : List BenchmarkIndividualMetrics) :
    ThroughputMetrics :=
  let count : ℚ := stats.length
  let total_mb_per_sec :=
    (stats.map (fun r => r.summary.throughput_megabytes_per_second)).sum
  let total_msg_per_sec :=
    (stats.map (fun r => r.summary.throughput_messages_per_second)).sum
  { total_megabytes_per_sec := total_mb_per_sec
    total_messages_per_sec := total_msg_per_sec
    average_megabytes_per_sec := total_mb_per_sec / count
    average_messages_per_sec := total_msg_per_sec / count }

/-- `LatencyMetrics` — intermediate record of `group.rs`. -/
structure LatencyMetrics where
  p50_latency : ℚ
  p90_latency : ℚ
  p95_latency : ℚ
  p99_latency : ℚ
  p999_latency : ℚ
  p9999_latency : ℚ
  average_latency : ℚ
  median_latency : ℚ
  deriving DecidableEq, Repr

/-- `calculate_latency_metrics` of `group.rs`: each field is the arithmetic
mean over the records of the corresponding per-record field. -/
def calculate_latency_metrics (stats : List BenchmarkIndividualMetrics) :
    LatencyMetrics :=
  let count : ℚ := stats.length
  { p50_latency := (stats.map (fun r => r.summary.p50_latency_ms)).sum / count
    p90_latency := (stats.map (fun r => r.summary.p90_latency_ms)).sum / count
    p95_latency := (stats.map (fun r => r.summary.p95_latency_ms)).sum / count
    p99_latency := (stats.map (fun r => r.summary.p99_latency_ms)).sum / count
    p999_latency := (stats.map (fun r => r.summary.p999_latency_ms)).sum / count
    p9999_latency := (stats.map (fun r => r.summary.p9999_latency_ms)).sum / count
    average_latency := (stats.map (fun r => r.summary.avg_latency_ms)).sum / count
    median_latency := (stats.map (fun r => r.summary.median_latency_ms)).sum / count }

/-- `determine_group_kind` of `group.rs`: classification from the first
record's actor kind.  The source unwraps the first element and is only ever
invoked on a 200-record slice; the `[]` arm (where the source would abort) is
unreachable junk. -/
def determine_group_kind (stats : List BenchmarkIndividualMetrics) :
    GroupMetricsKind :=
  match stats with
  | [] => GroupMetricsKind.ProducersAndConsumers
  | r :: _ =>
    match r.summary.actor_kind with
    | ActorKind.Producer => GroupMetricsKind.Producers
    | ActorKind.Consumer => GroupMetricsKind.Consumers
    | ActorKind.ProducingConsumer => GroupMetricsKind.ProducingConsumers

/-- `calculate_group_time_series` of `group.rs`: throughput channels are
combined by elementwise sum, the latency channel by elementwise mean, and all
three combined series are smoothed through the moving-average processor.
(The source's wall-clock logging calls carry no data and are omitted.) -/
def calculate_group_time_series (stats : List BenchmarkIndividualMetrics)
    (moving_average_window : ℕ) : TimeSeries × TimeSeries × TimeSeries :=
  let avg_throughput_mb_ts :=
    aggregate_sum (stats.map (fun r => r.throughput_mb_ts))
  let avg_throughput_msg_ts :=
    aggregate_sum (stats.map (fun r => r.throughput_msg_ts))
  let avg_latency_ts :=
    aggregate_avg (stats.map (fun r => r.latency_ts))
  (MovingAverageProcessor.process moving_average_window avg_throughput_mb_ts,
   MovingAverageProcessor.process moving_average_window avg_throughput_msg_ts,
   MovingAverageProcessor.process moving_average_window avg_latency_ts)

/-- `calculate_min_max_latencies` of `group.rs`: running min of the records'
`min_latency_ms` / running max of their `max_latency_ms` (`min_by`/`max_by`
over the iterator; `optMin`/`optMax` here); when absent — the source guards
with `is_empty`, and `min_by`/`max_by` of an empty iterator are likewise
absent — fall back to the min/max of the smoothed combined latency series,
and failing that to `0`. -/
def calculate_min_max_latencies (stats : List BenchmarkIndividualMetrics)
    (avg_latency_ts : TimeSeries) : ℚ × ℚ :=
  let min_latency_ms :=
    if stats.isEmpty then none
    else optMin (stats.map (fun s => s.summary.min_latency_ms))
  let max_latency_ms :=
    if stats.isEmpty then none
    else optMax (stats.map (fun s => s.summary.max_latency_ms))
  (min_latency_ms.getD ((utils_min avg_latency_ts).getD 0),
   max_latency_ms.getD ((utils_max avg_latency_ts).getD 0))

/-- `from_individual_metrics` of `group.rs`: absent on empty input; otherwise
classify (actor-kind based exactly at 200 records), aggregate throughput and
latency scalars, combine and smooth the time series, derive min/max with the
smoothed latency series as fallback, and attach the standard deviation of
that same series. -/
def from_individual_metrics (stats : List BenchmarkIndividualMetrics)
    (moving_average_window : ℕ) : Option BenchmarkGroupMetrics :=
  if stats.isEmpty then none
  else
    let kind :=
      if stats.length = 200 then determine_group_kind stats
      else GroupMetricsKind.ProducersAndConsumers
    let throughput_metrics := calculate_throughput_metrics stats
    let latency_metrics := calculate_latency_metrics stats
    let time_series := calculate_group_time_series stats moving_average_window
    let minmax := calculate_min_max_latencies stats time_series.2.2
    some
      { summary :=
          { kind := kind
            total_throughput_megabytes_per_second :=
              throughput_metrics.total_megabytes_per_sec
            total_throughput_messages_per_second :=
              throughput_metrics.total_messages_per_sec
            average_throughput_megabytes_per_second :=
              throughput_metrics.average_megabytes_per_sec
            average_throughput_messages_per_second :=
              throughput_metrics.average_messages_per_sec
            average_p50_latency_ms := latency_metrics.p50_latency
            average_p90_latency_ms := latency_metrics.p90_latency
            average_p95_latency_ms := latency_metrics.p95_latency
            average_p99_latency_ms := latency_metrics.p99_latency
            average_p999_latency_ms := latency_metrics.p999_latency
            average_p9999_latency_ms := latency_metrics.p9999_latency
            average_latency_ms := latency_metrics.average_latency
            average_median_latency_ms := latency_metrics.median_latency
            min_latency_ms := minmax.1
            max_latency_ms := minmax.2
            std_dev_latency_ms := (std_dev time_series.2.2).getD 0 }
        avg_throughput_mb_ts := time_series.1
        avg_throughput_msg_ts := time_series.2.1
        avg_latency_ts := time_series.2.2 }

/-- `from_producers_and_consumers_statistics` of `group.rs`: concatenate the
two collections (producers first, Rust's `[a, b].concat()`), delegate to
`from_individual_metrics` (propagating its absence, the `?` operator), then
overwrite the summary's kind with `ProducersAndConsumers`. -/
def from_producers_and_consumers_statistics
    (producers_stats consumers_stats : List BenchmarkIndividualMetrics)
    (moving_average_window : ℕ) : Option BenchmarkGroupMetrics :=
  match from_individual_metrics ([producers_stats, consumers_stats].flatten)
      moving_average_window with
  | none => none
  | some summary =>
    some { summary with
            summary := { summary.summary with
                          kind := GroupMetricsKind.ProducersAndConsumers } }

/-- The classification the spec assigns to a first record's actor kind. -/
def kindFromActor : ActorKind → GroupMetricsKind
  | ActorKind.Producer => GroupMetricsKind.Producers
  | ActorKind.Consumer => GroupMetricsKind.Consumers
  | ActorKind.ProducingConsumer => GroupMetricsKind.ProducingConsumers

/-- The scalar aggregates of a group result named by the spec's
order-independence property: totals, averages, percentile averages, and
min/max latency (the kind tag and the series-derived standard deviation are
not scalar aggregates of the records). -/
def scalarAggregates (g : BenchmarkGroupMetrics) :
    (ℚ × ℚ × ℚ × ℚ) × (ℚ × ℚ × ℚ × ℚ × ℚ × ℚ × ℚ × ℚ) × (ℚ × ℚ) :=
  ((g.summary.total_throughput_megabytes_per_second,
    g.summary.total_throughput_messages_per_second,
    g.summary.average_throughput_megabytes_per_second,
    g.summary.average_throughput_messages_per_second),
   (g.summary.average_p50_latency_ms,
    g.summary.average_p90_latency_ms,
    g.summary.average_p95_latency_ms,
    g.summary.average_p99_latency_ms,
    g.summary.average_p999_latency_ms,
    g.summary.average_p9999_latency_ms,
    g.summary.average_latency_ms,
    g.summary.average_median_latency_ms),
   (g.summary.min_latency_ms, g.summary.max_latency_ms))

/-- A sample scalar summary for concrete witnesses. -/
def sampleSummary (k : ActorKind) : BenchmarkIndividualMetricsSummary :=
  { actor_kind := k
    throughput_megabytes_per_second := 10
    throughput_messages_per_second := 1000
    p50_latency_ms := 2
    p90_latency_ms := 3
    p95_latency_ms := 4
    p99_latency_ms := 6
    p999_latency_ms := 7
    p9999_latency_ms := 8
    avg_latency_ms := 3
    median_latency_ms := 2
    min_latency_ms := 1
    max_latency_ms := 9
    total_message_batches := 5 }

/-- A sample record for concrete witnesses. -/
def sampleRecord (k : ActorKind) : BenchmarkIndividualMetrics :=
  { summary := sampleSummary k
    throughput_mb_ts := [2, 4, 6]
    throughput_msg_ts := [200, 400, 600]
    latency_ts := [2, 4, 6] }

section Helpers

instance : RightCommutative optMinStep := by
  refine ⟨?_⟩
  rintro (_ | ⟨m⟩) v1 v2 <;>
    simp [optMinStep, min_comm, min_assoc, min_left_comm]

instance : RightCommutative optMaxStep := by
  refine ⟨?_⟩
  rintro (_ | ⟨m⟩) v1 v2 <;>
    simp [optMaxStep, max_comm, max_assoc, max_left_comm]

theorem foldl_optMinStep_some (xs : List ℚ) (m : ℚ) :
    xs.foldl optMinStep (some m) = some (xs.foldl min m) := by
  induction xs generalizing m with
  | nil => rfl
  | cons x xs ih => simpa [optMinStep] using ih (min m x)

theorem foldl_optMaxStep_some (xs : List ℚ) (m : ℚ) :
    xs.foldl optMaxStep (some m) = some (xs.foldl max m) := by
  induction xs generalizing m with
  | nil => rfl
  | cons x xs ih => simpa [optMaxStep] using ih (max m x)

/-- The iterator running minimum agrees with the list minimum. -/
theorem optMin_eq_min? (l : List ℚ) : optMin l = l.min? := by
  cases l with
  | nil => rfl
  | cons x xs =>
    show (x :: xs).foldl optMinStep none = some (xs.foldl min x)
    simpa [optMinStep] using foldl_optMinStep_some xs x

/-- The iterator running maximum agrees with the list maximum. -/
theorem optMax_eq_max? (l : List ℚ) : optMax l = l.max? := by
  cases l with
  | nil => rfl
  | cons x xs =>
    show (x :: xs).foldl optMaxStep none = some (xs.foldl max x)
    simpa [optMaxStep] using foldl_optMaxStep_some xs x

theorem optMin_perm {l1 l2 : List ℚ} (h : l1.Perm l2) : optMin l1 = optMin l2 :=
  h.foldl_eq none

theorem optMax_perm {l1 l2 : List ℚ} (h : l1.Perm l2) : optMax l1 = optMax l2 :=
  h.foldl_eq none

theorem optMin_cons (x : ℚ) (xs : List ℚ) :
    optMin (x :: xs) = some (xs.foldl min x) := by
  show xs.foldl optMinStep (optMinStep none x) = _
  rw [show optMinStep none x = some x by simp [optMinStep]]
  exact foldl_optMinStep_some xs x

theorem optMax_cons (x : ℚ) (xs : List ℚ) :
    optMax (x :: xs) = some (xs.foldl max x) := by
  show xs.foldl optMaxStep (optMaxStep none x) = _
  rw [show optMaxStep none x = some x by simp [optMaxStep]]
  exact foldl_optMaxStep_some xs x

/-- Absence of a group result characterises empty input. -/
theorem from_individual_metrics_eq_none_iff
    (stats : List BenchmarkIndividualMetrics) (w : ℕ) :
    from_individual_metrics stats w = none ↔ stats = [] := by
  cases stats <;> simp [from_individual_metrics]

/-- The producers-and-consumers entry point is the direct entry point on the
concatenation, with the summary's kind overwritten. -/
theorem from_pc_eq (p c : List BenchmarkIndividualMetrics) (w : ℕ) :
    from_producers_and_consumers_statistics p c w =
      (from_individual_metrics (p ++ c) w).map (fun g =>
        { g with summary := { g.summary with
                               kind := GroupMetricsKind.ProducersAndConsumers } }) := by
  unfold from_producers_and_consumers_statistics
  have hf : ([p, c] : List (List BenchmarkIndividualMetrics)).flatten = p ++ c := by
    simp
  rw [hf]
  cases from_individual_metrics (p ++ c) w <;> rfl

/-- The scalar aggregates of a group result, in terms of the component
reductions of the records. -/
theorem map_scalarAggregates (r : BenchmarkIndividualMetrics)
    (rest : List BenchmarkIndividualMetrics) (w : ℕ) :
    (from_individual_metrics (r :: rest) w).map scalarAggregates =
      some
        (((calculate_throughput_metrics (r :: rest)).total_megabytes_per_sec,
          (calculate_throughput_metrics (r :: rest)).total_messages_per_sec,
          (calculate_throughput_metrics (r :: rest)).average_megabytes_per_sec,
          (calculate_throughput_metrics (r :: rest)).average_messages_per_sec),
         ((calculate_latency_metrics (r :: rest)).p50_latency,
          (calculate_latency_metrics (r :: rest)).p90_latency,
          (calculate_latency_metrics (r :: rest)).p95_latency,
          (calculate_latency_metrics (r :: rest)).p99_latency,
          (calculate_latency_metrics (r :: rest)).p999_latency,
          (calculate_latency_metrics (r :: rest)).p9999_latency,
          (calculate_latency_metrics (r :: rest)).average_latency,
          (calculate_latency_metrics (r :: rest)).median_latency),
         calculate_min_max_latencies (r :: rest)
           (calculate_group_time_series (r :: rest) w).2.2) := rfl

theorem calculate_throughput_metrics_perm
    {s1 s2 : List BenchmarkIndividualMetrics} (h : s1.Perm s2) :
    calculate_throughput_metrics s1 = calculate_throughput_metrics s2 := by
  unfold calculate_throughput_metrics
  rw [(h.map (fun r => r.summary.throughput_megabytes_per_second)).sum_eq,
      (h.map (fun r => r.summary.throughput_messages_per_second)).sum_eq,
      h.length_eq]

theorem calculate_latency_metrics_perm
    {s1 s2 : List BenchmarkIndividualMetrics} (h : s1.Perm s2) :
    calculate_latency_metrics s1 = calculate_latency_metrics s2 := by
  unfold calculate_latency_metrics
  rw [(h.map (fun r => r.summary.p50_latency_ms)).sum_eq,
      (h.map (fun r => r.summary.p90_latency_ms)).sum_eq,
      (h.map (fun r => r.summary.p95_latency_ms)).sum_eq,
      (h.map (fun r => r.summary.p99_latency_ms)).sum_eq,
      (h.map (fun r => r.summary.p999_latency_ms)).sum_eq,
      (h.map (fun r => r.summary.p9999_latency_ms)).sum_eq,
      (h.map (fun r => r.summary.avg_latency_ms)).sum_eq,
      (h.map (fun r => r.summary.median_latency_ms)).sum_eq,
      h.length_eq]

/-- On non-empty record lists the min/max derivation ignores the fallback
series and is invariant under permutation of the records. -/
theorem calculate_min_max_latencies_perm
    {a b : BenchmarkIndividualMetrics} {t1 t2 : List BenchmarkIndividualMetrics}
    (h : (a :: t1).Perm (b :: t2)) (ts1 ts2 : TimeSeries) :
    calculate_min_max_latencies (a :: t1) ts1 =
      calculate_min_max_latencies (b :: t2) ts2 := by
  have hmin :
      (t1.map (fun s => s.summary.min_latency_ms)).foldl min
          a.summary.min_latency_ms =
        (t2.map (fun s => s.summary.min_latency_ms)).foldl min
          b.summary.min_latency_ms := by
    have := optMin_perm (h.map (fun s => s.summary.min_latency_ms))
    simpa [optMin_cons] using this
  have hmax :
      (t1.map (fun s => s.summary.max_latency_ms)).foldl max
          a.summary.max_latency_ms =
        (t2.map (fun s => s.summary.max_latency_ms)).foldl max
          b.summary.max_latency_ms := by
    have := optMax_perm (h.map (fun s => s.summary.max_latency_ms))
    simpa [optMax_cons] using this
  simp [calculate_min_max_latencies, optMin_cons, optMax_cons, hmin, hmax]

/-- Permuting the records leaves all scalar aggregates of the group result
unchanged. -/
theorem map_scalarAggregates_perm {s1 s2 : List BenchmarkIndividualMetrics}
    (w : ℕ) (h : s1.Perm s2) :
    (from_individual_metrics s1 w).map scalarAggregates =
      (from_individual_metrics s2 w).map scalarAggregates := by
  cases s1 with
  | nil =>
    rw [h.symm.eq_nil]
  | cons a t1 =>
    cases s2 with
    | nil => exact absurd h.eq_nil (by simp)
    | cons b t2 =>
      rw [map_scalarAggregates a t1 w, map_scalarAggregates b t2 w,
          calculate_throughput_metrics_perm h, calculate_latency_metrics_perm h,
          calculate_min_max_latencies_perm h
            (calculate_group_time_series (a :: t1) w).2.2
            (calculate_group_time_series (b :: t2) w).2.2]

end Helpers

/-- C1: for every non-empty record collection, the kind of the summary
returned by `from_individual_metrics` is derived from the first record's
actor kind (Producer→Producers, Consumer→Consumers,
ProducingConsumer→ProducingConsumers) exactly when the collection's size is
200; for every other non-empty size it is `ProducersAndConsumers`. -/
theorem threshold_classification (r : BenchmarkIndividualMetrics)
    (rest : List BenchmarkIndividualMetrics) (w : ℕ) :
    (from_individual_metrics (r :: rest) w).map (fun g => g.summary.kind) =
      some
        (if (r :: rest).length = 200 then kindFromActor r.summary.actor_kind
         else GroupMetricsKind.ProducersAndConsumers) := by
  cases h : r.summary.actor_kind <;>
    simp [from_individual_metrics, determine_group_kind, kindFromActor, h]

/-- C2: whenever `from_producers_and_consumers_statistics` returns a result,
that result's kind is `ProducersAndConsumers`, for every pair of input
collections and every smoothing window — including a concatenation of
exactly 200 records whose first record is a producer. -/
theorem producers_and_consumers_kind_override
    (p c : List BenchmarkIndividualMetrics) (w : ℕ) (g : BenchmarkGroupMetrics)
    (h : from_producers_and_consumers_statistics p c w = some g) :
    g.summary.kind = GroupMetricsKind.ProducersAndConsumers := by
  rw [from_pc_eq] at h
  obtain ⟨g0, -, rfl⟩ := Option.map_eq_some'.mp h
  rfl

theorem producers_and_consumers_kind_override_witness :
    ∃ g,
      from_producers_and_consumers_statistics
          (List.replicate 200 (sampleRecord ActorKind.Producer)) [] 1 = some g ∧
        g.summary.kind = GroupMetricsKind.ProducersAndConsumers := by
  have h :
      from_producers_and_consumers_statistics
          (List.replicate 200 (sampleRecord ActorKind.Producer)) [] 1 = some _ :=
    rfl
  exact ⟨_, h, producers_and_consumers_kind_override _ _ _ _ h⟩

/-- C3: `from_individual_metrics` returns absence exactly on the empty
collection, for every smoothing window; every non-empty collection yields a
result. -/
theorem empty_input_absence (stats : List BenchmarkIndividualMetrics) (w : ℕ) :
    from_individual_metrics stats w = none ↔ stats = [] :=
  from_individual_metrics_eq_none_iff stats w

/-- C4: permuting the records of the input collection, and swapping the
concatenation order of the producer and consumer collections in
`from_producers_and_consumers_statistics`, changes no scalar aggregate of
the result (totals, averages, percentile averages, min/max latency). -/
theorem order_independence (s1 s2 p c : List BenchmarkIndividualMetrics)
    (w : ℕ) (h : s1.Perm s2) :
    (from_individual_metrics s1 w).map scalarAggregates =
        (from_individual_metrics s2 w).map scalarAggregates ∧
      (from_producers_and_consumers_statistics p c w).map scalarAggregates =
        (from_producers_and_consumers_statistics c p w).map scalarAggregates := by
  constructor
  · exact map_scalarAggregates_perm w h
  · simp only [from_pc_eq, Option.map_map]
    exact map_scalarAggregates_perm w List.perm_append_comm

theorem order_independence_witness :
    (from_individual_metrics
          [sampleRecord ActorKind.Producer, sampleRecord ActorKind.Consumer]
          2).map scalarAggregates =
        (from_individual_metrics
          [sampleRecord ActorKind.Consumer, sampleRecord ActorKind.Producer]
          2).map scalarAggregates ∧
      (from_producers_and_consumers_statistics [sampleRecord ActorKind.Producer]
            [sampleRecord ActorKind.Consumer] 2).map scalarAggregates =
        (from_producers_and_consumers_statistics [sampleRecord ActorKind.Consumer]
            [sampleRecord ActorKind.Producer] 2).map scalarAggregates :=
  order_independence _ _ _ _ 2 (by decide)

/-- C5: `calculate_min_max_latencies` yields the minimum of the records'
`min_latency_ms` and the maximum of their `max_latency_ms` (on `ℚ` the
source's NaN-degrading comparator is the total order); an empty record
collection falls back to the min/max of the fallback series, and an empty
fallback series to `0`. -/
theorem min_max_latency_with_fallback
    (stats : List BenchmarkIndividualMetrics) (ts : TimeSeries) :
    calculate_min_max_latencies stats ts =
      (((stats.map (fun s => s.summary.min_latency_ms)).min?).getD
          ((ts.min?).getD 0),
       ((stats.map (fun s => s.summary.max_latency_ms)).max?).getD
          ((ts.max?).getD 0)) := by
  cases stats <;>
    simp [calculate_min_max_latencies, utils_min, utils_max,
      optMin_eq_min?, optMax_eq_max?]

/-- C6: for every non-empty record collection, the total throughput fields
are the sums of the per-record throughput fields and the average throughput
fields are those totals divided by the record count. -/
theorem throughput_totals_and_averages (r : BenchmarkIndividualMetrics)
    (rest : List BenchmarkIndividualMetrics) (w : ℕ) :
    (from_individual_metrics (r :: rest) w).map (fun g =>
        (g.summary.total_throughput_megabytes_per_second,
         g.summary.total_throughput_messages_per_second,
         g.summary.average_throughput_megabytes_per_second,
         g.summary.average_throughput_messages_per_second)) =
      some
        (((r :: rest).map
            (fun x => x.summary.throughput_megabytes_per_second)).sum,
         ((r :: rest).map
            (fun x => x.summary.throughput_messages_per_second)).sum,
         ((r :: rest).map
            (fun x => x.summary.throughput_megabytes_per_second)).sum /
           ((r :: rest).length : ℚ),
         ((r :: rest).map
            (fun x => x.summary.throughput_messages_per_second)).sum /
           ((r :: rest).length : ℚ)) := rfl

/-- C7: for every non-empty record collection, each aggregated latency field
of the summary is the arithmetic mean over the records of the corresponding
per-record field (an average of already-computed per-actor percentiles). -/
theorem latency_percentile_averaging (r : BenchmarkIndividualMetrics)
    (rest : List BenchmarkIndividualMetrics) (w : ℕ) :
    (from_individual_metrics (r :: rest) w).map (fun g =>
        (g.summary.average_p50_latency_ms,
         g.summary.average_p90_latency_ms,
         g.summary.average_p95_latency_ms,
         g.summary.average_p99_latency_ms,
         g.summary.average_p999_latency_ms,
         g.summary.average_p9999_latency_ms,
         g.summary.average_latency_ms,
         g.summary.average_median_latency_ms)) =
      some
        (((r :: rest).map (fun x => x.summary.p50_latency_ms)).sum /
           ((r :: rest).length : ℚ),
         ((r :: rest).map (fun x => x.summary.p90_latency_ms)).sum /
           ((r :: rest).length : ℚ),
         ((r :: rest).map (fun x => x.summary.p95_latency_ms)).sum /
           ((r :: rest).length : ℚ),
         ((r :: rest).map (fun x => x.summary.p99_latency_ms)).sum /
           ((r :: rest).length : ℚ),
         ((r :: rest).map (fun x => x.summary.p999_latency_ms)).sum /
           ((r :: rest).length : ℚ),
         ((r :: rest).map (fun x => x.summary.p9999_latency_ms)).sum /
           ((r :: rest).length : ℚ),
         ((r :: rest).map (fun x => x.summary.avg_latency_ms)).sum /
           ((r :: rest).length : ℚ),
         ((r :: rest).map (fun x => x.summary.median_latency_ms)).sum /
           ((r :: rest).length : ℚ)) := rfl

/-- C8: for every non-empty record collection the summary's
standard-deviation field is taken over the smoothed combined latency time
series — the per-record latency series combined by elementwise mean and then
smoothed by the moving-average processor — and that same series is the one
attached to the result and the one handed to the min/max derivation as
fallback. -/
theorem std_dev_of_smoothed_series (r : BenchmarkIndividualMetrics)
    (rest : List BenchmarkIndividualMetrics) (w : ℕ) :
    (from_individual_metrics (r :: rest) w).map (fun g =>
        (g.summary.std_dev_latency_ms, g.avg_latency_ts,
         g.summary.min_latency_ms, g.summary.max_latency_ms)) =
      some
        ((std_dev (MovingAverageProcessor.process w
            (aggregate_avg ((r :: rest).map (fun x => x.latency_ts))))).getD 0,
         MovingAverageProcessor.process w
           (aggregate_avg ((r :: rest).map (fun x => x.latency_ts))),
         (calculate_min_max_latencies (r :: rest)
            (MovingAverageProcessor.process w
              (aggregate_avg ((r :: rest).map (fun x => x.latency_ts))))).1,
         (calculate_min_max_latencies (r :: rest)
            (MovingAverageProcessor.process w
              (aggregate_avg ((r :: rest).map (fun x => x.latency_ts))))).2) :=
  rfl

/-- C9: `from_producers_and_consumers_statistics` agrees with
`from_individual_metrics` on the concatenation (producers first) in every
field of the result; only the summary's kind is overwritten. -/
theorem producers_and_consumers_delegation
    (p c : List BenchmarkIndividualMetrics) (w : ℕ) :
    from_producers_and_consumers_statistics p c w =
      (from_individual_metrics (p ++ c) w).map (fun g =>
        { g with summary := { g.summary with
                               kind := GroupMetricsKind.ProducersAndConsumers } }) :=
  from_pc_eq p c w

/-- C10: `from_producers_and_consumers_statistics` returns absence exactly
when both input collections are empty, for every smoothing window. -/
theorem producers_and_consumers_absence_iff
    (p c : List BenchmarkIndividualMetrics) (w : ℕ) :
    from_producers_and_consumers_statistics p c w = none ↔ p = [] ∧ c = [] := by
  rw [from_pc_eq, Option.map_eq_none', from_individual_metrics_eq_none_iff,
    List.append_eq_nil]
